import Mathlib

/-!
# Verification of the esp-mitsubishi-heatpump protocol engine

A shallow embedding of the protocol engine of `src/restful-server.rs`:
the packet codec (`Packet::from_bytes`, `Packet::to_bytes`,
`Packet::compute_checksum`, `Packet::check_checksum`), the status decoder
(`status_to_state`), the setting encoder (`HeatPumpSetting::to_packet`),
the serial read path (`read_packet`) and the command/poll reply handling
of the main loop, together with theorems settling the specification's
claims about them.

Machine integers (`u8`) are modeled as `Nat` with explicit `% 256`
wherever the Rust code wraps (the firmware is built with release-profile
wrapping arithmetic); `f32` temperature values are modeled as `ℚ`
(every operation performed on them in this code — multiplication by 2,
division by 2, subtraction of small integers — is exact on binary
floating point in the relevant range, so the rational model is faithful);
fallible Rust functions returning `anyhow::Result` become `Except`;
a `panic!`/`.unwrap()` failure is modeled as a distinguished error value.
-/

/-- Error cases of `Packet::from_bytes` (each `anyhow::bail!` site). -/
inductive PacketErr where
  | tooShort
  | badMarker
  | lengthMismatch
  | checksumMismatch
  deriving DecidableEq, Repr

/-- The `Packet` struct: type byte, two header bytes, payload, checksum. -/
structure Packet where
  packet_type : Nat
  h2 : Nat
  h3 : Nat
  data : List Nat
  checksum : Nat
  deriving DecidableEq, Repr

namespace Packet

/-- Rust `Packet::compute_checksum`: `u8` sum (wrapping) of `0xfc`, the type
byte, both header bytes, the length byte (`data.len() as u8`) and every
payload byte, subtracted (wrapping) from `0xfc`. -/
def compute_checksum (p : Packet) : Nat :=
  let sum := p.data.foldl (fun s d => (s + d) % 256)
    (((((0xfc + p.packet_type) % 256 + p.h2) % 256 + p.h3) % 256 + p.data.length % 256) % 256)
  (0xfc + 256 - sum) % 256

/-- Rust `Packet::check_checksum`: the stored checksum equals the computed one. -/
def check_checksum (p : Packet) : Bool :=
  p.checksum == p.compute_checksum

/-- The packet that `Packet::from_bytes` assembles from a byte slice once
the guards pass: fields from bytes 1–3, payload from the `bytes[4]` bytes
after the header, checksum from the byte after the payload. -/
def parsePacket (b : List Nat) : Packet :=
  { packet_type := b.getD 1 0
    h2 := b.getD 2 0
    h3 := b.getD 3 0
    data := (b.drop 5).take (b.getD 4 0)
    checksum := b.getD (5 + b.getD 4 0) 0 }

/-- Rust `Packet::from_bytes`: guards in source order — minimum length, start
marker, declared length against available bytes, checksum. -/
def from_bytes (b : List Nat) : Except PacketErr Packet :=
  if b.length < 6 then .error .tooShort
  else if b.getD 0 0 ≠ 0xfc then .error .badMarker
  else if b.length < 6 + b.getD 4 0 then .error .lengthMismatch
  else if check_checksum (parsePacket b) then .ok (parsePacket b)
  else .error .checksumMismatch

/-- Rust `Packet::to_bytes`: marker, type, headers, length byte
(`data.len() as u8`), payload, checksum. -/
def to_bytes (p : Packet) : List Nat :=
  0xfc :: p.packet_type :: p.h2 :: p.h3 :: (p.data.length % 256) :: (p.data ++ [p.checksum])

end Packet

deriving instance DecidableEq for Except

/-! ## Domain enums (strum `FromRepr` enums with explicit discriminants) -/

/-- Status packet subtypes (`StatusPacketType`). -/
inductive StatusPacketType where
  | Settings | RoomTemperature | ErrorCodeMaybe | Timers | MiscInfo | StandbyMode
  deriving DecidableEq, Repr

/-- Rust `StatusPacketType::from_repr`. -/
def StatusPacketType.fromRepr (n : Nat) : Option StatusPacketType :=
  if n = 2 then some .Settings
  else if n = 3 then some .RoomTemperature
  else if n = 4 then some .ErrorCodeMaybe
  else if n = 5 then some .Timers
  else if n = 6 then some .MiscInfo
  else if n = 9 then some .StandbyMode
  else none

/-- Rust `HeatPumpMode` (Off=0, Heat=1, Dry=2, Cool=3, Fan=7, Auto=8). -/
inductive HeatPumpMode where
  | Off | Heat | Dry | Cool | Fan | Auto
  deriving DecidableEq, Repr

/-- Rust `HeatPumpMode::from_repr`. -/
def HeatPumpMode.fromRepr (n : Nat) : Option HeatPumpMode :=
  if n = 0 then some .Off
  else if n = 1 then some .Heat
  else if n = 2 then some .Dry
  else if n = 3 then some .Cool
  else if n = 7 then some .Fan
  else if n = 8 then some .Auto
  else none

/-- The discriminant of a `HeatPumpMode` (Rust `as u8`). -/
def HeatPumpMode.toRepr : HeatPumpMode → Nat
  | .Off => 0 | .Heat => 1 | .Dry => 2 | .Cool => 3 | .Fan => 7 | .Auto => 8

/-- Rust `FanSpeed` (Auto=0, Quiet=1, Low=2, Med=3, High=5, VeryHigh=6). -/
inductive FanSpeed where
  | Auto | Quiet | Low | Med | High | VeryHigh
  deriving DecidableEq, Repr

/-- Rust `FanSpeed::from_repr`. -/
def FanSpeed.fromRepr (n : Nat) : Option FanSpeed :=
  if n = 0 then some .Auto
  else if n = 1 then some .Quiet
  else if n = 2 then some .Low
  else if n = 3 then some .Med
  else if n = 5 then some .High
  else if n = 6 then some .VeryHigh
  else none

/-- The discriminant of a `FanSpeed` (Rust `as u8`). -/
def FanSpeed.toRepr : FanSpeed → Nat
  | .Auto => 0 | .Quiet => 1 | .Low => 2 | .Med => 3 | .High => 5 | .VeryHigh => 6

/-- Rust `VaneDirection` (Auto=0 .. Vertical=5, Swing=7). -/
inductive VaneDirection where
  | Auto | Horizontal | MidHorizontal | Midpoint | MidVertical | Vertical | Swing
  deriving DecidableEq, Repr

/-- Rust `VaneDirection::from_repr`. -/
def VaneDirection.fromRepr (n : Nat) : Option VaneDirection :=
  if n = 0 then some .Auto
  else if n = 1 then some .Horizontal
  else if n = 2 then some .MidHorizontal
  else if n = 3 then some .Midpoint
  else if n = 4 then some .MidVertical
  else if n = 5 then some .Vertical
  else if n = 7 then some .Swing
  else none

/-- The discriminant of a `VaneDirection` (Rust `as u8`). -/
def VaneDirection.toRepr : VaneDirection → Nat
  | .Auto => 0 | .Horizontal => 1 | .MidHorizontal => 2 | .Midpoint => 3
  | .MidVertical => 4 | .Vertical => 5 | .Swing => 7

/-- Rust `WideVaneDirection` (FarLeft=1 .. FarRight=5, Split=8, Swing=0x0c,
Unknown=999). -/
inductive WideVaneDirection where
  | FarLeft | Left | Mid | Right | FarRight | Split | Swing | Unknown
  deriving DecidableEq, Repr

/-- Rust `WideVaneDirection::from_repr`. -/
def WideVaneDirection.fromRepr (n : Nat) : Option WideVaneDirection :=
  if n = 1 then some .FarLeft
  else if n = 2 then some .Left
  else if n = 3 then some .Mid
  else if n = 4 then some .Right
  else if n = 5 then some .FarRight
  else if n = 8 then some .Split
  else if n = 0x0c then some .Swing
  else if n = 999 then some .Unknown
  else none

/-- The discriminant of a `WideVaneDirection` (Rust `as u8`). -/
def WideVaneDirection.toRepr : WideVaneDirection → Nat
  | .FarLeft => 1 | .Left => 2 | .Mid => 3 | .Right => 4 | .FarRight => 5
  | .Split => 8 | .Swing => 0x0c | .Unknown => 999

/-- Rust `ISeeMode` (Unknown=999, Direct=2, Indirect=1). -/
inductive ISeeMode where
  | Unknown | Direct | Indirect
  deriving DecidableEq, Repr

/-- Rust `ISeeMode::from_repr`. -/
def ISeeMode.fromRepr (n : Nat) : Option ISeeMode :=
  if n = 999 then some .Unknown
  else if n = 2 then some .Direct
  else if n = 1 then some .Indirect
  else none

/-! ## Domain structures -/

/-- Rust `x as u8` for `x : f32`, on the exact-rational model of `f32`:
the cast saturates to `[0, 255]` and truncates toward zero (so every
negative value clamps to `0`, making `Int.floor` adequate below zero). -/
def f32AsU8 (q : ℚ) : Nat :=
  ((max 0 (min 255 (Int.floor q))) : Int).toNat

/-- Rust `HeatPumpSetting`: the sparse user-requested command.  Temperature is
kept as an exact rational standing for the `f32`. -/
structure HeatPumpSetting where
  poweron : Option Bool
  mode : Option HeatPumpMode
  desired_temperature_c : Option ℚ
  fan_speed : Option FanSpeed
  vane : Option VaneDirection
  widevane : Option WideVaneDirection
  controller_led_brightness : Option Nat
  controller_location : Option String
  deriving DecidableEq, Repr

namespace HeatPumpSetting

/-- Rust `HeatPumpSetting::new`: all fields absent. -/
def new : HeatPumpSetting :=
  { poweron := none, mode := none, desired_temperature_c := none,
    fan_speed := none, vane := none, widevane := none,
    controller_led_brightness := none, controller_location := none }

/-- Rust `HeatPumpSetting::requires_packet`: true iff some appliance-facing
field is present. -/
def requires_packet (s : HeatPumpSetting) : Bool :=
  s.poweron.isSome || s.mode.isSome || s.desired_temperature_c.isSome ||
  s.fan_speed.isSome || s.vane.isSome || s.widevane.isSome

/-- Rust `HeatPumpSetting::to_packet`: a type-`0x41` packet with a 16-byte
zeroed payload; byte 0 is the standard "set" marker; each present field
sets its bit in the bitmask byte (byte 1, or byte 2 for wide-vane) and
writes its value at its fixed offset; the temperature byte is
`(t * 2.0) as u8 + 128` with wrapping `u8` addition; the wide-vane
discriminant is cast `as u8` (wrapping, so `Unknown = 999` would write
231), while the other discriminants are below 256. -/
def to_packet (s : HeatPumpSetting) : Packet :=
  let d := (List.replicate 16 0).set 0 1
  let d := match s.poweron with
    | some b => (d.set 1 ((d.getD 1 0) ||| 1)).set 3 (if b then 1 else 0)
    | none => d
  let d := match s.mode with
    | some m => (d.set 1 ((d.getD 1 0) ||| (1 <<< 1))).set 4 m.toRepr
    | none => d
  let d := match s.desired_temperature_c with
    | some t => (d.set 1 ((d.getD 1 0) ||| (1 <<< 2))).set 14 ((f32AsU8 (t * 2) + 128) % 256)
    | none => d
  let d := match s.fan_speed with
    | some f => (d.set 1 ((d.getD 1 0) ||| (1 <<< 3))).set 6 f.toRepr
    | none => d
  let d := match s.vane with
    | some v => (d.set 1 ((d.getD 1 0) ||| (1 <<< 4))).set 7 v.toRepr
    | none => d
  let d := match s.widevane with
    | some w => (d.set 2 ((d.getD 2 0) ||| 1)).set 13 (w.toRepr % 256)
    | none => d
  let p : Packet := { packet_type := 0x41, h2 := 0x01, h3 := 0x30, data := d, checksum := 0 }
  { p with checksum := p.compute_checksum }

end HeatPumpSetting

/-- Rust `HeatPumpStatus`: the shared snapshot.  The `last_status_packets`
hash map is modeled as an association list keyed by the raw subtype byte;
controller metadata fields (pin names, brightness, location) are not part
of the protocol engine and are omitted. -/
structure HeatPumpStatus where
  connected : Bool
  poweron : Bool
  isee_present : Bool
  mode : HeatPumpMode
  desired_temperature_c : ℚ
  fan_speed : FanSpeed
  vane : VaneDirection
  widevane : WideVaneDirection
  isee_mode : ISeeMode
  room_temperature_c : ℚ
  room_temperature_c_2 : ℚ
  operating : Nat
  error_data : Option (List Nat)
  last_status_packets : List (Nat × List Nat)
  desired_settings : Option HeatPumpSetting
  deriving DecidableEq, Repr

namespace HeatPumpStatus

/-- Rust `HeatPumpStatus::new`: sentinel initial values. -/
def new : HeatPumpStatus :=
  { connected := false, poweron := false, isee_present := false,
    mode := .Off, desired_temperature_c := -999,
    fan_speed := .Auto, vane := .Auto, widevane := .Mid,
    isee_mode := .Unknown, room_temperature_c := -999,
    room_temperature_c_2 := -999, operating := 0, error_data := none,
    last_status_packets := [], desired_settings := none }

end HeatPumpStatus

/-- Rust `HashMap::insert` on the association-list model: replace the value at
an existing key, else prepend. -/
def insertPacketMap (m : List (Nat × List Nat)) (k : Nat) (v : List Nat) :
    List (Nat × List Nat) :=
  if m.any (fun kv => kv.1 = k) then
    m.map (fun kv => if kv.1 = k then (k, v) else kv)
  else (k, v) :: m

/-! ## Status decoder (`status_to_state`) -/

/-- Error outcomes of `status_to_state`: the two `anyhow::bail!` guards,
and `panicked` for a `.unwrap()` on a failed enum lookup (the process
aborts there in the Rust code). -/
inductive StatusErr where
  | notStatusReply
  | wrongLength
  | panicked
  deriving DecidableEq, Repr

/-- The `Settings` arm of `status_to_state`: power from byte 3, i-See
flag from bit 3 of byte 4, mode from byte 4 with that bit masked off
(`.unwrap()` — panics on unrecognized codes), target temperature from
byte 11 (`(b − 128)/2.0` with wrapping `u8` subtraction) when nonzero
else byte 5 plus 10 (wrapping), fan and vane by `.unwrap()` lookups,
wide-vane from byte 10 with the top bit masked, falling back to
`Unknown`. -/
def decodeSettings (d : List Nat) (st : HeatPumpStatus) :
    Except StatusErr HeatPumpStatus :=
  let st := { st with
    poweron := d.getD 3 0 ≠ 0
    isee_present := decide ((d.getD 4 0) &&& 0b00001000 > 0) }
  match HeatPumpMode.fromRepr ((d.getD 4 0) &&& 0b11110111) with
  | none => .error .panicked
  | some m =>
    let st := { st with mode := m }
    let st :=
      if d.getD 11 0 ≠ 0 then
        { st with desired_temperature_c := (((d.getD 11 0 + 128) % 256 : Nat) : ℚ) / 2 }
      else
        { st with desired_temperature_c := (((d.getD 5 0 + 10) % 256 : Nat) : ℚ) }
    match FanSpeed.fromRepr (d.getD 6 0) with
    | none => .error .panicked
    | some f =>
      match VaneDirection.fromRepr (d.getD 7 0) with
      | none => .error .panicked
      | some v =>
        let wvmod := (d.getD 10 0) &&& 0x7f
        .ok { st with fan_speed := f, vane := v,
                      widevane := (WideVaneDirection.fromRepr wvmod).getD .Unknown }

/-- The `RoomTemperature` arm of `status_to_state`: primary temperature
from byte 6 (`(b − 128)/2.0`, wrapping) when nonzero else byte 3 plus 10
(wrapping); secondary from byte 7 when nonzero else the −999 sentinel;
i-See submode from byte 8 with `Unknown` fallback. -/
def decodeRoomTemperature (d : List Nat) (st : HeatPumpStatus) : HeatPumpStatus :=
  let st :=
    if d.getD 6 0 ≠ 0 then
      { st with room_temperature_c := (((d.getD 6 0 + 128) % 256 : Nat) : ℚ) / 2 }
    else
      { st with room_temperature_c := (((d.getD 3 0 + 10) % 256 : Nat) : ℚ) }
  let st :=
    if d.getD 7 0 ≠ 0 then
      { st with room_temperature_c_2 := (((d.getD 7 0 + 128) % 256 : Nat) : ℚ) / 2 }
    else
      { st with room_temperature_c_2 := -999 }
  { st with isee_mode := (ISeeMode.fromRepr (d.getD 8 0)).getD .Unknown }

/-- The final statement of `status_to_state`: every branch, recognized or
not, records the raw payload in the by-subtype map
(`state.last_status_packets.insert(packet.data[0], packet.data.clone())`). -/
def recordPacket (d : List Nat) (s : HeatPumpStatus) : HeatPumpStatus :=
  { s with last_status_packets := insertPacketMap s.last_status_packets (d.getD 0 0) d }

/-- Rust `status_to_state`: rejects non-`0x62` packets and payloads that are
not exactly 16 bytes, then dispatches on the subtype byte. -/
def statusToState (p : Packet) (st : HeatPumpStatus) :
    Except StatusErr HeatPumpStatus :=
  if p.packet_type ≠ 0x62 then .error .notStatusReply
  else if p.data.length ≠ 16 then .error .wrongLength
  else
    let d := p.data
    match StatusPacketType.fromRepr (d.getD 0 0) with
    | some .Settings => (decodeSettings d st).map (recordPacket d)
    | some .RoomTemperature => .ok (recordPacket d (decodeRoomTemperature d st))
    | some .ErrorCodeMaybe =>
        .ok (recordPacket d (if d.getD 4 0 = 0x80 then { st with error_data := none }
                             else { st with error_data := some d }))
    | some .Timers => .ok (recordPacket d st)
    | some .MiscInfo => .ok (recordPacket d { st with operating := d.getD 4 0 })
    | some .StandbyMode => .ok (recordPacket d st)
    | none => .ok (recordPacket d st)

/-! ## Serial read path and main-loop reply handling -/

/-- Errors that propagate out of a main-loop iteration through `?`
(terminating `main`, hence the control loop). -/
inductive LoopErr where
  | packetErr : PacketErr → LoopErr
  | statusErr : StatusErr → LoopErr
  deriving DecidableEq, Repr

/-- Rust `read_packet`: drain whatever bytes are waiting on the UART; zero
bytes is `Ok(None)`; otherwise parse them, propagating any
`Packet::from_bytes` error with `?`. -/
def readPacket (rx : List Nat) : Except PacketErr (Option Packet) :=
  match rx with
  | [] => .ok none
  | _ => (Packet.from_bytes rx).map some

/-- The receive half of one status-poll subtype exchange in `main`
(lines 623–633): `read_packet(&uart)?` propagates a parse error out of
the loop; `None` marks the link disconnected and aborts the poll cycle;
a packet is decoded into the snapshot via `status_to_state(..)?`.  The
boolean is the `all_done` flag for this subtype. -/
def pollReceiveStep (rx : List Nat) (st : HeatPumpStatus) :
    Except LoopErr (HeatPumpStatus × Bool) :=
  match readPacket rx with
  | .error e => .error (.packetErr e)
  | .ok none => .ok ({ st with connected := false }, false)
  | .ok (some p) =>
      match statusToState p st with
      | .error e => .error (.statusErr e)
      | .ok st' => .ok (st', true)

/-- The reply check of a command exchange in `main` (lines 582–595):
a reply of type `0x61` completes the send (`data_to_send = false`); any
other reply type hits `panic!` (modeled as `none`); no reply marks the
link disconnected without panicking, leaving `data_to_send` set.  The
boolean is `data_to_send` after the check. -/
def handleCommandReply (reply : Option Packet) (st : HeatPumpStatus) :
    Option (HeatPumpStatus × Bool) :=
  match reply with
  | some p => if p.packet_type = 0x61 then some (st, false) else none
  | none => some ({ st with connected := false }, true)

/-- The `/set.json` handler deposit (line 973): a successfully parsed
command replaces the pending command wholesale. -/
def depositCommand (st : HeatPumpStatus) (form : HeatPumpSetting) : HeatPumpStatus :=
  { st with desired_settings := some form }

/-! ## Concrete frames and commands used to settle the claims -/

/-- A checksum-valid `Settings` status frame whose fan-speed byte is `4`,
a code `FanSpeed` has no variant for. -/
def c1Packet : Packet :=
  { packet_type := 0x62, h2 := 0x01, h3 := 0x30,
    data := [2, 0, 0, 0, 0, 0, 4, 0, 0, 0, 0, 0, 0, 0, 0, 0], checksum := 87 }

/-- A byte sequence with a correct marker and length but a wrong checksum
(the computed checksum of this frame is 109). -/
def c2Bytes : List Nat := [0xfc, 0x62, 0x01, 0x30, 0, 99]

/-- A set-ack-typed packet with an empty payload and its checksum set. -/
def c5Packet : Packet :=
  { packet_type := 0x61, h2 := 0x01, h3 := 0x30, data := [], checksum := 110 }

/-- A pending command requesting only a target temperature of 21.75 °C
(exactly representable in `f32`; twice it is 43.5). -/
def c6Setting : HeatPumpSetting :=
  { HeatPumpSetting.new with desired_temperature_c := some (87 / 4 : ℚ) }

/-- A checksum-valid `RoomTemperature` status frame whose secondary
temperature byte (byte 7) is zero and whose legacy byte (byte 3) is 12. -/
def c7Packet : Packet :=
  { packet_type := 0x62, h2 := 0x01, h3 := 0x30,
    data := [3, 0, 0, 12, 0, 0, 150, 0, 2, 0, 0, 0, 0, 0, 0, 0], checksum := 182 }

/-- A checksum-valid status frame with the specification scenario's
payload `[9,0,0,1,8,22,0,3,0,0,3,0,0,0,0,0]` (first byte 9). -/
def c8Packet9 : Packet :=
  { packet_type := 0x62, h2 := 0x01, h3 := 0x30,
    data := [9, 0, 0, 1, 8, 22, 0, 3, 0, 0, 3, 0, 0, 0, 0, 0], checksum := 47 }

/-- The same payload with the subtype byte corrected to `Settings` (2). -/
def c8Packet2 : Packet :=
  { packet_type := 0x62, h2 := 0x01, h3 := 0x30,
    data := [2, 0, 0, 1, 8, 22, 0, 3, 0, 0, 3, 0, 0, 0, 0, 0], checksum := 54 }

/-- A checksum-valid `Settings` status frame whose mode byte (byte 4)
is 8. -/
def c10Packet : Packet :=
  { packet_type := 0x62, h2 := 0x01, h3 := 0x30,
    data := [2, 0, 0, 1, 8, 22, 0, 3, 0, 0, 3, 0, 0, 0, 0, 0], checksum := 54 }

/-- The snapshot produced by decoding `c10Packet` into a fresh store. -/
def c10Result : HeatPumpStatus :=
  { HeatPumpStatus.new with
    poweron := true, isee_present := true, mode := .Off,
    desired_temperature_c := 32, vane := .Midpoint,
    last_status_packets := [(2, [2, 0, 0, 1, 8, 22, 0, 3, 0, 0, 3, 0, 0, 0, 0, 0])] }

/-! ## Helper lemmas -/

/-- Folding wrapping `u8` addition over a list equals the wrapped total sum. -/
theorem foldl_mod_sum (l : List Nat) (a : Nat) :
    l.foldl (fun s d => (s + d) % 256) (a % 256) = (a + l.sum) % 256 := by
  induction l generalizing a with
  | nil => simp
  | cons x xs ih =>
    simp only [List.foldl_cons, List.sum_cons]
    rw [Nat.mod_add_mod, ih]
    ring_nf

/-- On a 16-byte status-reply packet, `statusToState` reduces to the
`Settings` decode arm when the subtype byte is 2. -/
theorem statusToState_settings (p : Packet) (st : HeatPumpStatus)
    (htype : p.packet_type = 0x62) (hlen : p.data.length = 16)
    (hsub : p.data.getD 0 0 = 2) :
    statusToState p st = (decodeSettings p.data st).map (recordPacket p.data) := by
  unfold statusToState
  rw [if_neg (by simp [htype]), if_neg (by simp [hlen])]
  simp only [hsub]
  rfl

/-- On a 16-byte status-reply packet, `statusToState` reduces to the
`RoomTemperature` decode arm when the subtype byte is 3. -/
theorem statusToState_room (p : Packet) (st : HeatPumpStatus)
    (htype : p.packet_type = 0x62) (hlen : p.data.length = 16)
    (hsub : p.data.getD 0 0 = 3) :
    statusToState p st = .ok (recordPacket p.data (decodeRoomTemperature p.data st)) := by
  unfold statusToState
  rw [if_neg (by simp [htype]), if_neg (by simp [hlen])]
  simp only [hsub]
  rfl

/-- The `Settings` arm panics exactly when one of the three unguarded
enum lookups (mode, fan speed, vane) fails. -/
theorem decodeSettings_panic_iff (d : List Nat) (st : HeatPumpStatus) :
    decodeSettings d st = .error .panicked ↔
      HeatPumpMode.fromRepr ((d.getD 4 0) &&& 0b11110111) = none ∨
      FanSpeed.fromRepr (d.getD 6 0) = none ∨
      VaneDirection.fromRepr (d.getD 7 0) = none := by
  unfold decodeSettings
  cases hm : HeatPumpMode.fromRepr ((d.getD 4 0) &&& 0b11110111) <;>
    cases hf : FanSpeed.fromRepr (d.getD 6 0) <;>
    cases hv : VaneDirection.fromRepr (d.getD 7 0) <;>
      simp [hm, hf, hv]

/-- Masking bit 3 off a byte can never produce the `Auto` discriminant. -/
theorem fromRepr_masked_ne_auto (n : Nat) :
    HeatPumpMode.fromRepr (n &&& 0b11110111) ≠ some .Auto := by
  have hbit : n &&& 0b11110111 ≠ 8 := by
    intro h
    have h3 : (n &&& 0b11110111).testBit 3 = (8 : Nat).testBit 3 := by rw [h]
    rw [Nat.testBit_and, show (0b11110111 : Nat).testBit 3 = false by decide,
        show (8 : Nat).testBit 3 = true by decide] at h3
    simp at h3
  unfold HeatPumpMode.fromRepr
  split_ifs <;> simp_all

/-- C10: a decoded `Settings` frame never yields mode `Auto`; a mode byte
of 8 decodes as the i-See flag with mode `Off`. -/
theorem settings_mode_never_auto (p : Packet) (st st' : HeatPumpStatus)
    (hok : statusToState p st = .ok st') (hsub : p.data.getD 0 0 = 2) :
    st'.mode ≠ HeatPumpMode.Auto ∧
    (p.data.getD 4 0 = 8 → st'.isee_present = true ∧ st'.mode = HeatPumpMode.Off) := by
  have htype : p.packet_type = 0x62 := by
    by_contra h
    simp [statusToState, h] at hok
  have hlen : p.data.length = 16 := by
    by_contra h
    simp [statusToState, htype, h] at hok
  rw [statusToState_settings p st htype hlen hsub] at hok
  cases hd : decodeSettings p.data st with
  | error e =>
    rw [hd] at hok
    rw [show Except.map (recordPacket p.data) (Except.error e) = Except.error e from rfl] at hok
    exact Except.noConfusion hok
  | ok s2 =>
    rw [hd] at hok
    rw [show Except.map (recordPacket p.data) (Except.ok s2) = Except.ok (recordPacket p.data s2)
        from rfl] at hok
    have hok' : recordPacket p.data s2 = st' := Except.ok.inj hok
    subst hok'
    unfold decodeSettings at hd
    cases hm : HeatPumpMode.fromRepr ((p.data.getD 4 0) &&& 0b11110111) with
    | none => rw [hm] at hd; exact absurd hd (by simp)
    | some m =>
      rw [hm] at hd
      cases hf : FanSpeed.fromRepr (p.data.getD 6 0) with
      | none => rw [hf] at hd; exact absurd hd (by simp)
      | some f =>
        rw [hf] at hd
        cases hv : VaneDirection.fromRepr (p.data.getD 7 0) with
        | none => rw [hv] at hd; exact absurd hd (by simp)
        | some v =>
          rw [hv] at hd
          simp only [Except.ok.injEq] at hd
          have hmode : s2.mode = m := by
            subst hd
            split_ifs <;> rfl
          have hisee : s2.isee_present = decide ((p.data.getD 4 0) &&& 0b00001000 > 0) := by
            subst hd
            split_ifs <;> rfl
          constructor
          · show (recordPacket p.data s2).mode ≠ HeatPumpMode.Auto
            show s2.mode ≠ HeatPumpMode.Auto
            rw [hmode]
            intro heq
            subst heq
            exact fromRepr_masked_ne_auto (p.data.getD 4 0) hm
          · intro h8
            rw [h8] at hm hisee
            constructor
            · show s2.isee_present = true
              rw [hisee]
              decide
            · show s2.mode = HeatPumpMode.Off
              rw [hmode]
              have : HeatPumpMode.fromRepr ((8 : Nat) &&& 0b11110111) = some .Off := by decide
              rw [this] at hm
              exact (Option.some.inj hm).symm

/-- C1 (amended): on valid status frames the `RoomTemperature` decode is
total (wide-vane and i-See lookups fall back to `Unknown`); in a command
exchange a missing reply marks the link disconnected without panicking,
and the reply check panics exactly when a reply arrives whose type is
not the set-ack `0x61`; on `Settings` frames the decoder panics exactly
when the unguarded mode/fan/vane lookups meet an unrecognized code. -/
theorem protocol_engine_panic_surface (p : Packet) (st : HeatPumpStatus)
    (htype : p.packet_type = 0x62) (hlen : p.data.length = 16) :
    (p.data.getD 0 0 = 3 → ∃ st', statusToState p st = .ok st') ∧
    (p.data.getD 0 0 = 2 →
      (statusToState p st = .error .panicked ↔
        HeatPumpMode.fromRepr ((p.data.getD 4 0) &&& 0b11110111) = none ∨
        FanSpeed.fromRepr (p.data.getD 6 0) = none ∨
        VaneDirection.fromRepr (p.data.getD 7 0) = none)) ∧
    handleCommandReply none st = some ({ st with connected := false }, true) ∧
    (∀ reply : Option Packet, handleCommandReply reply st = none ↔
      ∃ q, reply = some q ∧ q.packet_type ≠ 0x61) := by
  refine ⟨fun h3 => ⟨_, statusToState_room p st htype hlen h3⟩, fun h2 => ?_, rfl, ?_⟩
  · rw [statusToState_settings p st htype hlen h2]
    rw [show ∀ z : Except StatusErr HeatPumpStatus,
          (z.map (recordPacket p.data) = Except.error .panicked ↔ z = Except.error .panicked)
        from fun z => by cases z <;> simp [Except.map]]
    exact decodeSettings_panic_iff p.data st
  · intro reply
    cases reply with
    | none => simp [handleCommandReply]
    | some q =>
      show (if q.packet_type = 0x61 then some (st, false) else none) = none ↔ _
      split_ifs with hq <;> simp [hq]

/-- C7 (amended): on a valid `RoomTemperature` frame the primary ambient
temperature uses the dual encoding (new byte 6 nonzero → `(b−128)/2` with
wrapping `u8` subtraction, else legacy byte 3 plus 10); the secondary has
no legacy path — new byte 7 nonzero → `(b−128)/2`, else the −999
sentinel; byte 8 decodes the presence-sensor submode with `Unknown`
fallback. -/
theorem room_temperature_decode (p : Packet) (st : HeatPumpStatus)
    (htype : p.packet_type = 0x62) (hlen : p.data.length = 16)
    (hsub : p.data.getD 0 0 = 3) :
    ∃ st', statusToState p st = .ok st' ∧
      st'.room_temperature_c =
        (if p.data.getD 6 0 ≠ 0 then (((p.data.getD 6 0 + 128) % 256 : ℕ) : ℚ) / 2
         else (((p.data.getD 3 0 + 10) % 256 : ℕ) : ℚ)) ∧
      st'.room_temperature_c_2 =
        (if p.data.getD 7 0 ≠ 0 then (((p.data.getD 7 0 + 128) % 256 : ℕ) : ℚ) / 2
         else -999) ∧
      st'.isee_mode = (ISeeMode.fromRepr (p.data.getD 8 0)).getD .Unknown := by
  refine ⟨_, statusToState_room p st htype hlen hsub, ?_, ?_, ?_⟩
  all_goals
    unfold decodeRoomTemperature recordPacket
    split_ifs <;> rfl

/-- C2 (amended): in the poll receive step, bytes that fail frame
validation propagate the decode error out of the loop iteration (the
`?` operator in `main` — the loop does not continue), while an empty
read (no reply) only clears the connected flag and continues. -/
theorem malformed_frame_propagates (rx : List Nat) (st : HeatPumpStatus) :
    (∀ e, rx ≠ [] → Packet.from_bytes rx = .error e →
      pollReceiveStep rx st = .error (.packetErr e)) ∧
    pollReceiveStep [] st = .ok ({ st with connected := false }, false) := by
  constructor
  · intro e hne he
    cases rx with
    | nil => exact absurd rfl hne
    | cons x xs =>
      unfold pollReceiveStep readPacket
      rw [he]
      rfl
  · rfl

/-- C9: depositing command `a` and then command `b` leaves exactly `b`
pending — the second deposit replaces the first wholesale, with no
field-level merge; the store is as if only `b` had ever been deposited. -/
theorem deposit_overwrites (st : HeatPumpStatus) (a b : HeatPumpSetting) :
    (depositCommand (depositCommand st a) b).desired_settings = some b ∧
    depositCommand (depositCommand st a) b = depositCommand st b :=
  ⟨rfl, rfl⟩

set_option maxHeartbeats 2000000 in
/-- C6 (amended): a present target temperature sets bit 2 of the bitmask
byte and writes `(t * 2.0) as u8 + 128` — a saturating truncation, not a
rounding — at payload byte 14; every absent optional field leaves its
bitmask bit clear and its payload byte zero. -/
theorem to_packet_fields (s : HeatPumpSetting) :
    (∀ t, s.desired_temperature_c = some t →
      ((s.to_packet.data.getD 1 0) &&& 4 = 4 ∧
       s.to_packet.data.getD 14 0 = (f32AsU8 (t * 2) + 128) % 256)) ∧
    (s.poweron = none → (s.to_packet.data.getD 1 0) &&& 1 = 0 ∧ s.to_packet.data.getD 3 0 = 0) ∧
    (s.mode = none → (s.to_packet.data.getD 1 0) &&& 2 = 0 ∧ s.to_packet.data.getD 4 0 = 0) ∧
    (s.desired_temperature_c = none →
      (s.to_packet.data.getD 1 0) &&& 4 = 0 ∧ s.to_packet.data.getD 14 0 = 0) ∧
    (s.fan_speed = none → (s.to_packet.data.getD 1 0) &&& 8 = 0 ∧ s.to_packet.data.getD 6 0 = 0) ∧
    (s.vane = none → (s.to_packet.data.getD 1 0) &&& 16 = 0 ∧ s.to_packet.data.getD 7 0 = 0) ∧
    (s.widevane = none → (s.to_packet.data.getD 2 0) &&& 1 = 0 ∧ s.to_packet.data.getD 13 0 = 0) := by
  obtain ⟨po, mo, te, fa, va, wi, lb, loc⟩ := s
  rcases po with _ | b <;> rcases mo with _ | m <;> rcases te with _ | t0 <;>
    rcases fa with _ | f <;> rcases va with _ | v <;> rcases wi with _ | w <;>
    refine ⟨?_, ?_, ?_, ?_, ?_, ?_, ?_⟩ <;>
      first
        | (intro t ht
           obtain rfl := Option.some.inj ht
           constructor <;> simp [HeatPumpSetting.to_packet] <;> decide)
        | (intro t ht
           exact Option.noConfusion ht)
        | (intro h
           exact Option.noConfusion h)
        | (intro h
           constructor <;> simp [HeatPumpSetting.to_packet] <;> decide)

/-! ## Counterexamples and witnesses on concrete inputs -/

/-- C1 counterexample: `c1Packet` is checksum-valid, decodable from its
own wire bytes, yet `status_to_state` hits the fan-speed `.unwrap()` and
panics — the fan-speed lookup is not total with an `Unknown` fallback. -/
theorem fan_speed_unwrap_panics :
    Packet.from_bytes c1Packet.to_bytes = .ok c1Packet ∧
    Packet.check_checksum c1Packet = true ∧
    statusToState c1Packet HeatPumpStatus.new = .error .panicked := by
  refine ⟨by decide, by decide, by decide⟩

/-- C4: the computed checksum is `0xFC` minus (wrapping) the mod-256 sum of
`0xFC`, type, header2, header3, the length byte and every payload byte, and
verification compares the stored checksum against exactly this value. -/
theorem checksum_spec (p : Packet) :
    p.compute_checksum =
      (0xfc + 256 -
        (0xfc + p.packet_type + p.h2 + p.h3 + p.data.length % 256 + p.data.sum) % 256) % 256 ∧
    (p.check_checksum = true ↔ p.checksum = p.compute_checksum) := by
  constructor
  · show (let sum := _; (0xfc + 256 - sum) % 256) = _
    simp only
    rw [foldl_mod_sum]
    omega
  · simp [Packet.check_checksum]

/-- C3: the error cases of `Packet::from_bytes` fire exactly under the
stated conditions, in the stated precedence, and success returns the
fields read from the corresponding bytes. -/
theorem from_bytes_spec (b : List Nat) :
    (Packet.from_bytes b = .error .tooShort ↔ b.length < 6) ∧
    (Packet.from_bytes b = .error .badMarker ↔ 6 ≤ b.length ∧ b.getD 0 0 ≠ 0xfc) ∧
    (Packet.from_bytes b = .error .lengthMismatch ↔
      6 ≤ b.length ∧ b.getD 0 0 = 0xfc ∧ b.length < 6 + b.getD 4 0) ∧
    (Packet.from_bytes b = .error .checksumMismatch ↔
      6 ≤ b.length ∧ b.getD 0 0 = 0xfc ∧ 6 + b.getD 4 0 ≤ b.length ∧
      Packet.check_checksum (Packet.parsePacket b) = false) ∧
    (∀ p, Packet.from_bytes b = .ok p →
      p.packet_type = b.getD 1 0 ∧ p.h2 = b.getD 2 0 ∧ p.h3 = b.getD 3 0 ∧
      p.data = (b.drop 5).take (b.getD 4 0) ∧
      p.checksum = b.getD (5 + b.getD 4 0) 0) := by
  unfold Packet.from_bytes
  split_ifs with h1 h2 h3 h4 <;> simp_all [Packet.parsePacket]

/-- Parsing the serialization of a packet recovers it, provided the
length byte can represent the payload length. -/
theorem parse_to_bytes (p : Packet) (hlen : p.data.length ≤ 255) :
    Packet.parsePacket p.to_bytes = p := by
  obtain ⟨t, h2, h3, data, ck⟩ := p
  simp only at hlen
  have hmod : data.length % 256 = data.length := Nat.mod_eq_of_lt (by omega)
  have hform : Packet.to_bytes ⟨t, h2, h3, data, ck⟩ =
      [0xfc, t, h2, h3, data.length % 256] ++ (data ++ [ck]) := rfl
  unfold Packet.parsePacket
  rw [hform, hmod]
  have h1 : ([0xfc, t, h2, h3, data.length] ++ (data ++ [ck])).getD 1 0 = t := rfl
  have h2' : ([0xfc, t, h2, h3, data.length] ++ (data ++ [ck])).getD 2 0 = h2 := rfl
  have h3' : ([0xfc, t, h2, h3, data.length] ++ (data ++ [ck])).getD 3 0 = h3 := rfl
  have h4 : ([0xfc, t, h2, h3, data.length] ++ (data ++ [ck])).getD 4 0 = data.length := rfl
  have hck : ([0xfc, t, h2, h3, data.length] ++ (data ++ [ck])).getD (5 + data.length) 0 = ck := by
    rw [List.getD_eq_getElem?_getD, List.getElem?_append_right (by simp)]
    simp
  have hdata : List.take data.length (List.drop 5 ([0xfc, t, h2, h3, data.length] ++ (data ++ [ck])))
      = data := List.take_left data [ck]
  rw [h1, h2', h3', h4, hck, hdata]

/-- C5: serializing a packet whose checksum has been set and whose
payload fits the length byte, then decoding, succeeds and returns a
packet with the same checksum, which re-verifies. -/
theorem encode_decode_round_trip (p : Packet)
    (hck : p.checksum = p.compute_checksum) (hlen : p.data.length ≤ 255) :
    Packet.from_bytes p.to_bytes = .ok p ∧
    (∀ q, Packet.from_bytes p.to_bytes = .ok q →
      q.checksum = p.checksum ∧ q.check_checksum = true) := by
  have hparse := parse_to_bytes p hlen
  have hchk : p.check_checksum = true := by
    simp [Packet.check_checksum, hck]
  have hlen6 : (Packet.to_bytes p).length = 6 + p.data.length := by
    simp [Packet.to_bytes]
    omega
  have h0 : (Packet.to_bytes p).getD 0 0 = 0xfc := rfl
  have h4 : (Packet.to_bytes p).getD 4 0 = p.data.length := by
    show p.data.length % 256 = p.data.length
    omega
  have hmain : Packet.from_bytes p.to_bytes = .ok p := by
    unfold Packet.from_bytes
    rw [hlen6, h0, h4, hparse, hchk]
    simp
  exact ⟨hmain, fun q hq => by
    rw [hmain] at hq
    cases hq
    exact ⟨rfl, hchk⟩⟩

/-- C1 amended witness at the concrete frame `c1Packet` and a fresh
store: the panic characterization, the no-reply behavior, and the panic
on an unexpected reply type (`c1Packet` has type `0x62`, not `0x61`)
all apply. -/
theorem fan_speed_unwrap_panics_witness :
    (statusToState c1Packet HeatPumpStatus.new = .error .panicked ↔
      HeatPumpMode.fromRepr ((c1Packet.data.getD 4 0) &&& 0b11110111) = none ∨
      FanSpeed.fromRepr (c1Packet.data.getD 6 0) = none ∨
      VaneDirection.fromRepr (c1Packet.data.getD 7 0) = none) ∧
    handleCommandReply none HeatPumpStatus.new =
      some ({ HeatPumpStatus.new with connected := false }, true) ∧
    handleCommandReply (some c1Packet) HeatPumpStatus.new = none :=
  ⟨(protocol_engine_panic_surface c1Packet HeatPumpStatus.new (by decide) (by decide)).2.1
      (by decide),
   (protocol_engine_panic_surface c1Packet HeatPumpStatus.new (by decide) (by decide)).2.2.1,
   ((protocol_engine_panic_surface c1Packet HeatPumpStatus.new (by decide) (by decide)).2.2.2
      (some c1Packet)).mpr ⟨c1Packet, rfl, by decide⟩⟩

/-- C2 counterexample: `c2Bytes` has a good marker and length but a bad
checksum; the poll receive step surfaces the decode error rather than
continuing with state intact — the loop iteration is terminated. -/
theorem malformed_frame_not_discarded :
    Packet.from_bytes c2Bytes = .error .checksumMismatch ∧
    pollReceiveStep c2Bytes HeatPumpStatus.new = .error (.packetErr .checksumMismatch) ∧
    (pollReceiveStep c2Bytes HeatPumpStatus.new).isOk = false := by
  refine ⟨by decide, by decide, by decide⟩

/-- C2 amended witness at `c2Bytes` and the empty read. -/
theorem malformed_frame_propagates_witness :
    pollReceiveStep c2Bytes HeatPumpStatus.new = .error (.packetErr .checksumMismatch) ∧
    pollReceiveStep [] HeatPumpStatus.new =
      .ok ({ HeatPumpStatus.new with connected := false }, false) :=
  ⟨(malformed_frame_propagates c2Bytes HeatPumpStatus.new).1 .checksumMismatch
      (by decide) (by decide),
   (malformed_frame_propagates [] HeatPumpStatus.new).2⟩

/-- C3 witness: the decode guards applied at concrete inputs. -/
theorem from_bytes_spec_witness :
    Packet.from_bytes [] = .error .tooShort ∧
    Packet.from_bytes [0, 0, 0, 0, 0, 0] = .error .badMarker ∧
    Packet.from_bytes [0xfc, 0, 0, 0, 3, 0] = .error .lengthMismatch :=
  ⟨(from_bytes_spec []).1.mpr (by decide),
   (from_bytes_spec [0, 0, 0, 0, 0, 0]).2.1.mpr (by decide),
   (from_bytes_spec [0xfc, 0, 0, 0, 3, 0]).2.2.1.mpr (by decide)⟩

/-- C5 witness: the empty-payload set-ack frame round-trips. -/
theorem encode_decode_round_trip_witness :
    Packet.from_bytes c5Packet.to_bytes = .ok c5Packet ∧
    Packet.check_checksum c5Packet = true :=
  ⟨(encode_decode_round_trip c5Packet (by decide) (by decide)).1,
   ((encode_decode_round_trip c5Packet (by decide) (by decide)).2 c5Packet
      (encode_decode_round_trip c5Packet (by decide) (by decide)).1).2⟩

/-- C6 counterexample: for a requested temperature of 21.75 °C the code
writes `trunc(43.5) + 128 = 171` into byte 14, while `round(t*2) + 128`
would give `172` — the encoder truncates rather than rounds. -/
theorem temperature_encode_truncates :
    c6Setting.to_packet.data.getD 14 0 = 171 ∧
    ((round ((87 : ℚ) / 4 * 2) : ℤ) + 128).toNat = 172 ∧
    c6Setting.to_packet.data.getD 14 0 ≠
      ((round ((87 : ℚ) / 4 * 2) : ℤ) + 128).toNat := by
  have h1 : c6Setting.to_packet.data.getD 14 0 = 171 := by
    norm_num [c6Setting, HeatPumpSetting.to_packet, HeatPumpSetting.new, f32AsU8]
    decide
  have h2 : ((round ((87 : ℚ) / 4 * 2) : ℤ) + 128).toNat = 172 := by
    norm_num [round_eq]
    decide
  refine ⟨h1, h2, ?_⟩
  rw [h1, h2]
  decide

/-- C6 amended witness at `c6Setting` (temperature present, all other
optional fields absent). -/
theorem to_packet_fields_witness :
    (c6Setting.to_packet.data.getD 1 0 &&& 4 = 4 ∧
     c6Setting.to_packet.data.getD 14 0 = (f32AsU8 ((87 : ℚ) / 4 * 2) + 128) % 256) ∧
    (c6Setting.to_packet.data.getD 1 0 &&& 1 = 0 ∧ c6Setting.to_packet.data.getD 3 0 = 0) ∧
    (c6Setting.to_packet.data.getD 2 0 &&& 1 = 0 ∧ c6Setting.to_packet.data.getD 13 0 = 0) :=
  ⟨(to_packet_fields c6Setting).1 ((87 : ℚ) / 4) rfl,
   (to_packet_fields c6Setting).2.1 rfl,
   (to_packet_fields c6Setting).2.2.2.2.2.2 rfl⟩

/-- C7 counterexample: on the checksum-valid `RoomTemperature` frame
`c7Packet` (secondary byte 7 = 0, legacy byte 3 = 12) the secondary
ambient temperature is the −999 sentinel, not the legacy `byte + 10`
(= 22) the dual-encoding claim predicts; the primary decodes to 11 °C. -/
theorem secondary_temp_no_legacy_path :
    Packet.check_checksum c7Packet = true ∧
    (statusToState c7Packet HeatPumpStatus.new).map
        (fun s => (s.room_temperature_c, s.room_temperature_c_2)) =
      .ok ((11 : ℚ), (-999 : ℚ)) ∧
    ((-999 : ℚ) ≠ ((12 : ℚ) + 10)) := by
  refine ⟨by decide, ?_, by norm_num⟩
  rw [statusToState_room c7Packet HeatPumpStatus.new (by decide) (by decide) (by decide)]
  simp only [Except.map, Except.ok.injEq]
  norm_num [recordPacket, decodeRoomTemperature, c7Packet, HeatPumpStatus.new]

/-- C7 amended witness at `c7Packet` and a fresh store. -/
theorem room_temperature_decode_witness :
    ∃ st', statusToState c7Packet HeatPumpStatus.new = .ok st' ∧
      st'.room_temperature_c =
        (if c7Packet.data.getD 6 0 ≠ 0 then (((c7Packet.data.getD 6 0 + 128) % 256 : ℕ) : ℚ) / 2
         else (((c7Packet.data.getD 3 0 + 10) % 256 : ℕ) : ℚ)) ∧
      st'.room_temperature_c_2 =
        (if c7Packet.data.getD 7 0 ≠ 0 then (((c7Packet.data.getD 7 0 + 128) % 256 : ℕ) : ℚ) / 2
         else -999) ∧
      st'.isee_mode = (ISeeMode.fromRepr (c7Packet.data.getD 8 0)).getD .Unknown :=
  room_temperature_decode c7Packet HeatPumpStatus.new (by decide) (by decide) (by decide)

/-- C8 counterexample: the scenario payload's first byte is 9, so the
frame is a `StandbyMode` status, not `Settings`: decoding it into a
fresh store leaves power off, mode `Off` and the −999 temperature
sentinel — not poweron=true, mode=Auto, 32 °C. -/
theorem scenario_payload_is_standby :
    Packet.check_checksum c8Packet9 = true ∧
    (statusToState c8Packet9 HeatPumpStatus.new).map
        (fun s => (s.poweron, s.mode, s.desired_temperature_c)) =
      .ok (false, HeatPumpMode.Off, (-999 : ℚ)) ∧
    (statusToState c8Packet9 HeatPumpStatus.new).map (fun s => s.poweron) ≠ .ok true := by
  refine ⟨by decide, by decide, by decide⟩

/-- C8 (amended): the scenario payload decodes as `StandbyMode` (typed
fields untouched, raw map updated); with the subtype byte corrected to
`Settings` (2) it decodes to poweron=true, i-See present, mode `Off`
(bit 3 of the mode byte is the i-See flag, masked off before the mode
lookup), and 32 °C via the legacy path (byte 5 = 22 → 22 + 10). -/
theorem scenario_payload_corrected :
    statusToState c8Packet9 HeatPumpStatus.new =
      .ok (recordPacket c8Packet9.data HeatPumpStatus.new) ∧
    (statusToState c8Packet2 HeatPumpStatus.new).map
        (fun s => (s.poweron, s.isee_present, s.mode, s.desired_temperature_c)) =
      .ok (true, true, HeatPumpMode.Off, (32 : ℚ)) := by
  refine ⟨by decide, by decide⟩

/-- C10 witness: decoding `c10Packet` (mode byte 8) into a fresh store
gives `c10Result`, whose mode is `Off`, not `Auto`, with the i-See flag
set. -/
theorem settings_mode_never_auto_witness :
    statusToState c10Packet HeatPumpStatus.new = .ok c10Result ∧
    c10Result.mode ≠ HeatPumpMode.Auto ∧
    c10Result.isee_present = true ∧ c10Result.mode = HeatPumpMode.Off :=
  ⟨by decide,
   (settings_mode_never_auto c10Packet HeatPumpStatus.new c10Result (by decide) (by decide)).1,
   ((settings_mode_never_auto c10Packet HeatPumpStatus.new c10Result (by decide) (by decide)).2
      (by decide)).1,
   ((settings_mode_never_auto c10Packet HeatPumpStatus.new c10Result (by decide) (by decide)).2
      (by decide)).2⟩
